import Mathlib

/-!
Verification development for the isolated protocol bridge of the browser agent:
`BrowserManager` (browserAgentDefinition.ts / browserManager.ts),
the MCP tool wrapper (`mcpToolWrapper.ts`) and the bridge factory
(`browserAgentFactory.ts`).  Each definition is a shallow embedding of the
corresponding TypeScript function; stateful methods are embedded as explicit
state-passing functions, the JavaScript event loop's run-to-first-await
atomicity is embedded as atomic blocks of a small-step interleaving model,
and promise settlement is embedded by explicit settle times.
-/

namespace GeminiBrowser

/-- Minimal JSON value model, used for the opaque tool input schemas that the
bridge passes through verbatim. -/
inductive Json where
  | str : String → Json
  | num : Nat → Json
  | bool : Bool → Json
  | obj : List (String × Json) → Json
  | arr : List Json → Json

/-- Field lookup on a JSON object; `none` on non-objects and absent keys. -/
def Json.lookup : Json → String → Option Json
  | Json.obj fields, key => fields.lookup key
  | _, _ => none

/-- Content item type tag: `'text' | 'image'` (browserManager.ts, `McpContentItem`). -/
inductive ContentType where
  | text
  | image
deriving DecidableEq

/-- `McpContentItem` from browserManager.ts: a content item of an MCP tool
call response.  All payload fields are optional, as in the source interface. -/
structure McpContentItem where
  type : ContentType
  text : Option String := none
  data : Option String := none
  mimeType : Option String := none
deriving DecidableEq

/-- `McpToolCallResult` from browserManager.ts. -/
structure McpToolCallResult where
  content : Option (List McpContentItem) := none
  isError : Bool := false
deriving DecidableEq

/-- A raw content item of the MCP SDK response, before `toResult` maps it
(its `type` is an arbitrary optional string). -/
structure RawContentItem where
  type : Option String := none
  text : Option String := none
  data : Option String := none
  mimeType : Option String := none

/-- The raw MCP SDK `callTool` response shape: `content` is `none` when the
raw value is not an array (the `Array.isArray` guard), and `isError` is an
optional flag. -/
structure RawCallResult where
  content : Option (List RawContentItem) := none
  isError : Option Bool := none

/-- `BrowserManager.toResult` (browserManager.ts lines 295-316): maps the raw
SDK response to the typed result; any type other than `'image'` becomes
`'text'`, and `isError` becomes `raw.isError === true`. -/
def toResult (raw : RawCallResult) : McpToolCallResult :=
  { content := raw.content.map fun items =>
      items.map fun item =>
        { type := if item.type = some "image" then ContentType.image else ContentType.text
          text := item.text
          data := item.data
          mimeType := item.mimeType }
    isError := raw.isError == some true }

/-- `Tool` descriptor from the MCP SDK as used here: a name, an optional
description and an optional input schema. -/
structure McpTool where
  name : String
  description : Option String := none
  inputSchema : Option Json := none

/-- `FunctionDeclaration` as produced by `convertMcpToolToFunctionDeclaration`. -/
structure FunctionDeclaration where
  name : String
  description : String
  parametersJsonSchema : Json

/-- The empty-object schema default from mcpToolWrapper.ts line 190-193:
`{ type: 'object', properties: {} }`. -/
def emptyObjectSchema : Json :=
  Json.obj [("type", Json.str "object"), ("properties", Json.obj [])]

/-- `convertMcpToolToFunctionDeclaration` (mcpToolWrapper.ts lines 182-195):
passes the schema through verbatim, defaulting a missing description to `''`
and a missing input schema to the empty-object schema. -/
def convertMcpToolToFunctionDeclaration (mcpTool : McpTool) : FunctionDeclaration :=
  { name := mcpTool.name
    description := mcpTool.description.getD ""
    parametersJsonSchema := mcpTool.inputSchema.getD emptyObjectSchema }

/-- `ToolResult.error` payload (`error: { message }`). -/
structure ToolError where
  message : String
deriving DecidableEq

/-- The `ToolResult` shape produced by `McpToolInvocation.execute`: a primary
payload, a display string and an optional error record.  Note there is no
constructor or field distinguishing a cancelled call. -/
structure ToolResult where
  llmContent : String
  returnDisplay : String
  error : Option ToolError := none
deriving DecidableEq

/-- The text extraction of `McpToolInvocation.execute` (mcpToolWrapper.ts
lines 74-80): `result.content.filter(c => c.type === 'text' && c.text)
.map(c => c.text).join('\n')`, with `''` when `content` is absent.
JavaScript truthiness of `c.text` excludes both a missing and an empty text. -/
def normalizeTextContent : Option (List McpContentItem) → String
  | some items =>
      String.intercalate "\n"
        ((items.filter fun c =>
            c.type == ContentType.text && !(c.text.getD "" == "")).map
          fun c => c.text.getD "")
  | none => ""

/-- Independent reformulation of the code's text extraction, used to state the
amended normalization claims: keep exactly the text-typed items carrying a
nonempty text, in order. -/
def joinNonemptyTexts (items : List McpContentItem) : String :=
  String.intercalate "\n"
    (items.filterMap fun c =>
      match c.type, c.text with
      | ContentType.text, some t => if t = "" then none else some t
      | _, _ => none)

/-- Modelled from the spec: "the concatenation of all text-typed content items
(joined by newline)", taken literally over every item whose type is text,
including items whose text is empty or absent.  Used only to compare the
claims' words with the code's `normalizeTextContent`. -/
def specAllTextJoined (items : List McpContentItem) : String :=
  String.intercalate "\n"
    ((items.filter fun c => c.type == ContentType.text).map fun c => c.text.getD "")

/-- Error raised out of `BrowserManager.callTool`, as observed by
`McpToolInvocation.execute`'s catch block. -/
inductive CallErr where
  | cancelled (reason : String)
  | connect (msg : String)
  | remote (msg : String)
deriving DecidableEq

/-- The `.message` of the raised error (`error instanceof Error ? error.message : ...`). -/
def CallErr.message : CallErr → String
  | CallErr.cancelled r => r
  | CallErr.connect m => m
  | CallErr.remote m => m

/-- `McpToolInvocation.execute` (mcpToolWrapper.ts lines 64-103), as a function
of the settled outcome of the underlying `browserManager.callTool` promise:
the try branch normalizes the response, the catch branch maps any raised
error to an `Error: `-prefixed failure-shaped result. -/
def executeResult : Except CallErr McpToolCallResult → ToolResult
  | Except.ok result =>
      let textContent := normalizeTextContent result.content
      if result.isError then
        { llmContent := "Error: " ++ textContent
          returnDisplay := "Error: " ++ textContent
          error := some { message := textContent } }
      else
        { llmContent := if textContent = "" then "Tool executed successfully." else textContent
          returnDisplay := if textContent = "" then "Tool executed successfully." else textContent }
  | Except.error e =>
      { llmContent := "Error: " ++ e.message
        returnDisplay := "Error: " ++ e.message
        error := some { message := e.message } }

/-- `BrowserManager` instance state (browserManager.ts lines 211-217):
`rawMcpClient` and `mcpTransport` hold allocation identities when set;
`spawnCount` is a ghost counter of transports ever created (subprocess
spawns), never read by the embedded code itself. -/
structure MState where
  rawMcpClient : Option Nat := none
  mcpTransport : Option Nat := none
  discoveredTools : List McpTool := []
  spawnCount : Nat := 0

/-- Environment for one connect attempt: whether `client.connect(transport)`
resolves, and the `listTools` response (`none` = discovery fails). -/
structure ConnectEnv where
  connectOk : Bool
  listToolsResponse : Option (List McpTool)

/-- `BrowserManager.connectMcp` followed by `discoverTools` (browserManager.ts
lines 372-439): synchronously creates the client and the transport (a new
spawn), then awaits `connect`; on success awaits `listTools` and stores the
discovered tools.  On failure the client and transport fields stay set, as in
the source (no rollback). -/
def connectMcp (s : MState) (env : ConnectEnv) : MState × Except String Unit :=
  let s1 : MState :=
    { s with rawMcpClient := some (s.spawnCount + 1)
             mcpTransport := some (s.spawnCount + 1)
             spawnCount := s.spawnCount + 1 }
  if env.connectOk then
    match env.listToolsResponse with
    | some ts => ({ s1 with discoveredTools := ts }, Except.ok ())
    | none => (s1, Except.error "listTools failed")
  else (s1, Except.error "connect failed")

/-- `BrowserManager.ensureConnection` (browserManager.ts lines 321-326):
returns immediately when `rawMcpClient` is set, else runs `connectMcp`. -/
def ensureConnection (s : MState) (env : ConnectEnv) : MState × Except String Unit :=
  if s.rawMcpClient.isSome then (s, Except.ok ()) else connectMcp s env

/-- Environment for one `close` call: whether the client close and transport
close steps reject. -/
structure CloseEnv where
  clientCloseFails : Bool := false
  transportCloseFails : Bool := false

/-- Observable teardown actions, in emission order. -/
inductive CloseAction where
  | closeClient
  | closeTransport
deriving DecidableEq

/-- `BrowserManager.close` (browserManager.ts lines 333-359): closes the
client first (if present), then the transport (if present); each step's
failure is caught and logged; both fields are cleared and the discovered
tools list is emptied unconditionally.  Returns the post state, the ordered
list of close actions performed, and the error log lines. -/
def close (s : MState) (env : CloseEnv) : MState × List CloseAction × List String :=
  let clientStep : List CloseAction × List String :=
    match s.rawMcpClient with
    | some _ =>
        ([CloseAction.closeClient],
         if env.clientCloseFails then ["Error closing MCP client"] else [])
    | none => ([], [])
  let transportStep : List CloseAction × List String :=
    match s.mcpTransport with
    | some _ =>
        ([CloseAction.closeTransport],
         if env.transportCloseFails then ["Error closing MCP transport"] else [])
    | none => ([], [])
  ({ s with rawMcpClient := none, mcpTransport := none, discoveredTools := [] },
   clientStep.1 ++ transportStep.1, clientStep.2 ++ transportStep.2)

/-- `cleanupBrowserAgent` (browserAgentFactory.ts lines 86-97): awaits
`close` inside a try/catch, logging either completion or the error; it
returns normally in every case. -/
def cleanupBrowserAgent (s : MState) (env : CloseEnv) : MState × List String :=
  let r := close s env
  (r.1, r.2.2 ++ ["Browser agent cleanup complete"])

/-- An external cancellation signal: whether it is already aborted when
`callTool` starts, when it fires afterwards (`none` = never, measured on the
same clock as the remote settle time), and its optional `reason`. -/
structure Signal where
  abortedAtCall : Bool
  abortTime : Option Nat := none
  reason : Option String := none

/-- `signal?.aborted`. -/
def signalAborted : Option Signal → Bool
  | some sig => sig.abortedAtCall
  | none => false

/-- `signal.reason ?? new Error('Operation cancelled')`, as a message. -/
def abortReason : Option Signal → String
  | some sig => sig.reason.getD "Operation cancelled"
  | none => "Operation cancelled"

/-- Behaviour of the remote `client.callTool` promise: it settles at
`settleTime` with either a raw response or a rejection message (the SDK's
fixed 60s timeout is one such rejection). -/
structure RemoteBehavior where
  settleTime : Nat
  result : Except String RawCallResult

/-- The `Promise.race([callPromise, abortPromise])` of `BrowserManager.callTool`
(browserManager.ts lines 275-282): the first settlement wins; the abort
promise rejects with the signal reason when the signal fires strictly before
the remote call settles, otherwise the remote call's own settlement is the
outcome and the loser is discarded. -/
def race (remote : RemoteBehavior) (abortTime : Option Nat) (reason : String) :
    Except CallErr RawCallResult :=
  match abortTime with
  | none => remote.result.mapError CallErr.remote
  | some ta =>
      if remote.settleTime ≤ ta then remote.result.mapError CallErr.remote
      else Except.error (CallErr.cancelled reason)

/-- `BrowserManager.getRawMcpClient` (browserManager.ts lines 223-232): the
connected client if present, else the result of `ensureConnection`. -/
def getClientStep (s : MState) (env : ConnectEnv) : MState × Except String Unit :=
  if s.rawMcpClient.isSome then (s, Except.ok ()) else connectMcp s env

/-- Result of one embedded `callTool`: the post state, the number of requests
sent to the subprocess transport, and the settled outcome. -/
structure CallOutput where
  state : MState
  requestsSent : Nat
  outcome : Except CallErr McpToolCallResult

/-- `BrowserManager.callTool` (browserManager.ts lines 251-289): the
pre-aborted check throws before anything is sent; then the client is obtained
(possibly connecting); the request is issued; without a signal the call is
awaited directly, with a signal it is raced against the abort; the raw
response is normalized by `toResult`. -/
def callTool (s : MState) (signal : Option Signal) (env : ConnectEnv)
    (remote : RemoteBehavior) : CallOutput :=
  if signalAborted signal then
    { state := s, requestsSent := 0,
      outcome := Except.error (CallErr.cancelled (abortReason signal)) }
  else
    match getClientStep s env with
    | (s1, Except.error m) =>
        { state := s1, requestsSent := 0, outcome := Except.error (CallErr.connect m) }
    | (s1, Except.ok _) =>
        match signal with
        | none =>
            { state := s1, requestsSent := 1,
              outcome := Except.map toResult (remote.result.mapError CallErr.remote) }
        | some sig =>
            { state := s1, requestsSent := 1,
              outcome := Except.map toResult
                (race remote sig.abortTime (sig.reason.getD "Operation cancelled")) }

/-- `McpToolInvocation.execute` composed over the underlying `callTool`. -/
def executeTool (s : MState) (signal : Option Signal) (env : ConnectEnv)
    (remote : RemoteBehavior) : ToolResult :=
  executeResult (callTool s signal env remote).outcome

/-- An `McpDeclarativeTool` as constructed by `createMcpDeclarativeTools`
(mcpToolWrapper.ts lines 109-142): identity of the bound `BrowserManager`,
the mirrored name/description/schema, and the bound message bus. -/
structure McpDeclarativeTool where
  browserManagerId : Nat
  name : String
  description : String
  parameterSchema : Json
  messageBusId : Nat

/-- Construction of one wrapped tool: `new McpDeclarativeTool(browserManager,
mcpTool.name, mcpTool.description ?? '', schema.parametersJsonSchema,
messageBus)` (mcpToolWrapper.ts lines 167-175). -/
def wrapTool (browserManagerId messageBusId : Nat) (mcpTool : McpTool) : McpDeclarativeTool :=
  { browserManagerId := browserManagerId
    name := mcpTool.name
    description := mcpTool.description.getD ""
    parameterSchema := (convertMcpToolToFunctionDeclaration mcpTool).parametersJsonSchema
    messageBusId := messageBusId }

/-- `createMcpDeclarativeTools` (mcpToolWrapper.ts lines 156-177): one wrapped
tool per discovered descriptor, by mapping; no registry is touched, no
deduplication or renaming is applied. -/
def createMcpDeclarativeTools (browserManagerId messageBusId : Nat)
    (discovered : List McpTool) : List McpDeclarativeTool :=
  discovered.map (wrapTool browserManagerId messageBusId)

/-- Ambient world for the bridge factory: a fresh-identity allocator for
`new BrowserManager(config)` and the shared/global tool registry of the host
process (which the factory never touches — modelling the frame property). -/
structure World where
  nextManagerId : Nat := 0
  toolRegistry : List (String × Nat) := []

/-- The factory's return value (browserAgentFactory.ts lines 71-78): the
definition's configured tool set plus the browser manager handle. -/
structure BridgeResult where
  tools : List McpDeclarativeTool
  browserManager : Nat

/-- `createBrowserAgentDefinition` (browserAgentFactory.ts lines 41-79),
abstracted over the discovery response: constructs a fresh `BrowserManager`,
wraps the discovered tools for it, and returns them only through its return
value; the shared registry component of the world is not read or written. -/
def createBrowserAgentDefinition (w : World) (messageBusId : Nat)
    (discovered : List McpTool) : World × BridgeResult :=
  let mgr := w.nextManagerId
  ({ w with nextManagerId := mgr + 1 },
   { tools := createMcpDeclarativeTools mgr messageBusId discovered
     browserManager := mgr })

/-- Program counter of one `ensureConnection` caller in the interleaving
model: `start` is the synchronous prefix up to the first await (the
`rawMcpClient` check, and on the miss path the synchronous client/transport
creation inside `connectMcp`); `awaitConnect` and `awaitDiscover` are the two
suspension points. -/
inductive CPC where
  | start
  | awaitConnect
  | awaitDiscover
deriving DecidableEq

/-- Observed outcome of one caller. -/
inductive COutcome where
  | pending
  | ok
  | err
deriving DecidableEq

/-- One concurrent `ensureConnection` caller. -/
structure Caller where
  pc : CPC := CPC.start
  outcome : COutcome := COutcome.pending
deriving DecidableEq

/-- Shared state for the interleaving model of concurrent `ensureConnection`
calls on one `BrowserManager`: whether `rawMcpClient` is set, the ghost spawn
counter, and the callers. -/
structure CState where
  client : Bool := false
  spawns : Nat := 0
  callers : List Caller := []
deriving DecidableEq

/-- One atomic block of one caller, as delimited by the await points of
`ensureConnection`/`connectMcp`.  In `start`, a set `rawMcpClient` makes the
caller return immediately (without waiting for the in-flight attempt);
otherwise the client and transport are created synchronously (one spawn) and
the caller suspends on `connect`.  The suspension points resolve per the
environment; a failure leaves `rawMcpClient` set, as in the source. -/
def stepCaller (env : ConnectEnv) (g : Bool × Nat) (c : Caller) : (Bool × Nat) × Caller :=
  match c.outcome with
  | COutcome.ok => (g, c)
  | COutcome.err => (g, c)
  | COutcome.pending =>
      match c.pc with
      | CPC.start =>
          if g.1 then (g, { c with outcome := COutcome.ok })
          else ((true, g.2 + 1), { c with pc := CPC.awaitConnect })
      | CPC.awaitConnect =>
          if env.connectOk then (g, { c with pc := CPC.awaitDiscover })
          else (g, { c with outcome := COutcome.err })
      | CPC.awaitDiscover =>
          if env.listToolsResponse.isSome then (g, { c with outcome := COutcome.ok })
          else (g, { c with outcome := COutcome.err })

/-- Run one scheduler step: advance caller `i` by one atomic block. -/
def stepAt (env : ConnectEnv) (st : CState) (i : Nat) : CState :=
  match st.callers.get? i with
  | none => st
  | some c =>
      let r := stepCaller env (st.client, st.spawns) c
      { client := r.1.1, spawns := r.1.2, callers := st.callers.set i r.2 }

/-- Run a whole schedule (a list of caller indices) over `n` concurrent
`ensureConnection` callers starting from a fresh `BrowserManager`. -/
def runSched (env : ConnectEnv) (n : Nat) (sched : List Nat) : CState :=
  sched.foldl (stepAt env) { client := false, spawns := 0, callers := List.replicate n {} }

/-- Concrete descriptor used by witnesses and counterexamples. -/
def mcpToolClick : McpTool := { name := "click" }

/-- A connect environment in which the attempt succeeds and discovery returns
one tool. -/
def connectEnvOk : ConnectEnv :=
  { connectOk := true, listToolsResponse := some [mcpToolClick] }

/-- A connect environment in which `connect` rejects. -/
def connectEnvFail : ConnectEnv :=
  { connectOk := false, listToolsResponse := none }

/-- State after a successful first `ensureConnection` on a fresh manager. -/
def stateConnected : MState := (ensureConnection {} connectEnvOk).1

/-- State after closing the connected manager. -/
def stateClosed : MState := (close stateConnected {}).1

/-- A signal that is already aborted at call time. -/
def sigAborted : Signal := { abortedAtCall := true }

/-- A live signal that fires at time 10. -/
def sigLate : Signal := { abortedAtCall := false, abortTime := some 10 }

/-- A remote behaviour settling successfully at time 5 with one text item. -/
def remoteOk : RemoteBehavior :=
  { settleTime := 5
    result := Except.ok { content := some [{ type := some "text", text := some "done" }] } }

/-- Content item with an empty text payload. -/
def itemEmptyText : McpContentItem := { type := ContentType.text, text := some "" }

/-- Content item with text `"a"`. -/
def itemTextA : McpContentItem := { type := ContentType.text, text := some "a" }

/-- Content item with text `"boom"`. -/
def itemBoom : McpContentItem := { type := ContentType.text, text := some "boom" }

theorem sanity_normalize :
    normalizeTextContent (some [itemTextA, { type := ContentType.image }, itemBoom]) = "a\nboom" := rfl

/-- The code's filtered text extraction agrees with the independent
`filterMap` formulation keeping exactly the nonempty-text text items. -/
theorem filterTexts_eq_filterMap (items : List McpContentItem) :
    ((items.filter fun c =>
        c.type == ContentType.text && !(c.text.getD "" == "")).map
      fun c => c.text.getD "")
      = items.filterMap fun c =>
          match c.type, c.text with
          | ContentType.text, some t => if t = "" then none else some t
          | _, _ => none := by
  induction items with
  | nil => rfl
  | cons c rest ih =>
      rcases c with ⟨ty, tx, d, m⟩
      cases ty with
      | text =>
          cases tx with
          | none => simpa using ih
          | some t =>
              by_cases ht : t = ""
              · subst ht; simpa using ih
              · simp [List.filter_cons, List.filterMap_cons, ht, ih]
      | image => simpa using ih

/-- `normalizeTextContent` over a present content list equals the
independent nonempty-text join. -/
theorem normalizeTextContent_eq (items : List McpContentItem) :
    normalizeTextContent (some items) = joinNonemptyTexts items := by
  simp only [normalizeTextContent, joinNonemptyTexts]
  rw [filterTexts_eq_filterMap]

/-- Claim C4 (confirmed): a `callTool` whose cancellation signal is already
aborted at call time fails immediately with the cancellation reason, leaves
the manager state untouched (no connection attempt) and sends no request to
the subprocess transport. -/
theorem c4_preaborted_cancellation (s : MState) (env : ConnectEnv)
    (remote : RemoteBehavior) (sig : Signal) (h : sig.abortedAtCall = true) :
    callTool s (some sig) env remote =
      { state := s, requestsSent := 0,
        outcome := Except.error (CallErr.cancelled (sig.reason.getD "Operation cancelled")) } := by
  simp [callTool, signalAborted, h, abortReason]

/-- Witness for C4: the pre-aborted signal on a fresh manager yields the
cancelled outcome with zero requests sent. -/
theorem c4_preaborted_witness :
    callTool {} (some sigAborted) connectEnvOk remoteOk =
      { state := {}, requestsSent := 0,
        outcome := Except.error (CallErr.cancelled "Operation cancelled") } :=
  c4_preaborted_cancellation {} connectEnvOk remoteOk sigAborted rfl

/-- Claim C5 (confirmed): in the `Promise.race` of the remote call against the
cancellation signal, whichever settles first determines the single outcome:
if the remote settles at or before the signal fires (or the signal never
fires) the remote's settlement is delivered — in particular a successful
remote answer is never dropped — and if the signal fires strictly first the
outcome is the cancellation; exactly one request is sent. -/
theorem c5_cancellation_race (s : MState) (sig : Signal) (env : ConnectEnv)
    (remote : RemoteBehavior)
    (hlive : sig.abortedAtCall = false) (hconn : s.rawMcpClient.isSome = true) :
    (∀ raw, remote.result = Except.ok raw →
        (∀ ta, sig.abortTime = some ta → remote.settleTime ≤ ta) →
        (callTool s (some sig) env remote).outcome = Except.ok (toResult raw))
    ∧ ((∀ ta, sig.abortTime = some ta → remote.settleTime ≤ ta) →
        (callTool s (some sig) env remote).outcome
          = Except.map toResult (remote.result.mapError CallErr.remote))
    ∧ (∀ ta, sig.abortTime = some ta → ta < remote.settleTime →
        (callTool s (some sig) env remote).outcome
          = Except.error (CallErr.cancelled (sig.reason.getD "Operation cancelled")))
    ∧ (callTool s (some sig) env remote).requestsSent = 1 := by
  have hg : getClientStep s env = (s, Except.ok ()) := by
    simp [getClientStep, hconn]
  have hremote : (∀ ta, sig.abortTime = some ta → remote.settleTime ≤ ta) →
      (callTool s (some sig) env remote).outcome
        = Except.map toResult (remote.result.mapError CallErr.remote) := by
    intro hfirst
    simp only [callTool, signalAborted, hlive, Bool.false_eq_true, if_false, hg]
    cases habt : sig.abortTime with
    | none => simp [race, habt]
    | some ta => simp [race, habt, hfirst ta habt]
  refine ⟨?_, hremote, ?_, ?_⟩
  · intro raw hraw hfirst
    rw [hremote hfirst, hraw]
    rfl
  · intro ta habt hlt
    simp only [callTool, signalAborted, hlive, Bool.false_eq_true, if_false, hg]
    simp [race, habt, Nat.not_le.mpr hlt, Except.map]
  · simp [callTool, signalAborted, hlive, hg]

/-- Witness for C5: with the signal firing at time 10 and the remote
answering successfully at time 5, the success outcome is delivered. -/
theorem c5_race_witness :
    (callTool stateConnected (some sigLate) connectEnvOk remoteOk).outcome
      = Except.ok (toResult
          { content := some [{ type := some "text", text := some "done" }] }) :=
  (c5_cancellation_race stateConnected sigLate connectEnvOk remoteOk rfl rfl).1
    { content := some [{ type := some "text", text := some "done" }] } rfl
    (by intro ta h; cases h; decide)

/-- Counterexample to claim C2 as stated: after `close()` has completed, a
subsequent `ensureConnection()` does not fail — it succeeds, sets a fresh
client and spawns a second subprocess transport (`spawnCount` rises to 2). -/
theorem c2_no_resurrection_counterexample :
    (ensureConnection stateClosed connectEnvOk).2 = Except.ok ()
    ∧ (ensureConnection stateClosed connectEnvOk).1.spawnCount = 2
    ∧ (ensureConnection stateClosed connectEnvOk).1.rawMcpClient = some 2 :=
  ⟨rfl, rfl, rfl⟩

/-- Claim C2 as amended: `close()` resets the manager to its unconnected
state, so any subsequent `ensureConnection()` under a succeeding environment
completes successfully, spawning exactly one new subprocess transport and
repopulating the discovered tools — a closed manager is resurrectable. -/
theorem c2_no_resurrection_amended (s : MState) (cenv : CloseEnv)
    (env : ConnectEnv) (ts : List McpTool) (hok : env.connectOk = true)
    (hts : env.listToolsResponse = some ts) :
    (ensureConnection (close s cenv).1 env).2 = Except.ok ()
    ∧ (ensureConnection (close s cenv).1 env).1.spawnCount = s.spawnCount + 1
    ∧ (ensureConnection (close s cenv).1 env).1.rawMcpClient.isSome = true
    ∧ (ensureConnection (close s cenv).1 env).1.discoveredTools = ts := by
  simp [close, ensureConnection, connectMcp, hok, hts]

/-- Witness for the amended C2: close a fresh manager, reconnect, observe
one spawn and the rediscovered tool list. -/
theorem c2_amended_witness :
    (ensureConnection (close {} {}).1 connectEnvOk).2 = Except.ok ()
    ∧ (ensureConnection (close {} {}).1 connectEnvOk).1.spawnCount = 1
    ∧ (ensureConnection (close {} {}).1 connectEnvOk).1.rawMcpClient.isSome = true
    ∧ (ensureConnection (close {} {}).1 connectEnvOk).1.discoveredTools = [mcpToolClick] :=
  c2_no_resurrection_amended {} {} connectEnvOk [mcpToolClick] rfl rfl

/-- Claim C9 (confirmed): `close` clears the client, the transport and the
capability catalog on every completion regardless of step failures; the close
actions run in order (client first, then transport) and a step's failure
never suppresses the following step (the action list does not depend on the
failure environment); a second `close` performs no actions and is a no-op on
the state; `cleanupBrowserAgent` delegates to `close`, returns normally for
every environment and is safe to call multiple times. -/
theorem c9_teardown (s : MState) (env env2 : CloseEnv) :
    (close s env).1.rawMcpClient = none
    ∧ (close s env).1.mcpTransport = none
    ∧ (close s env).1.discoveredTools = []
    ∧ (close s env).2.1
        = (if s.rawMcpClient.isSome then [CloseAction.closeClient] else [])
            ++ (if s.mcpTransport.isSome then [CloseAction.closeTransport] else [])
    ∧ close (close s env).1 env2 = ((close s env).1, [], [])
    ∧ (cleanupBrowserAgent s env).1 = (close s env).1
    ∧ (cleanupBrowserAgent (cleanupBrowserAgent s env).1 env2).1
        = (cleanupBrowserAgent s env).1 := by
  rcases s with ⟨rc, mt, dt, sc⟩
  cases rc <;> cases mt <;> simp [close, cleanupBrowserAgent]

/-- Claim C10 (confirmed): whenever the underlying `callTool` raises — a
pre-aborted or racing cancellation, a timeout rejection from the SDK, or a
connection failure from the internal `ensureConnection` — the wrapped
`execute` returns (never throws) a failure-shaped result whose error message
is the raised error's message and whose display text is prefixed with
`Error: `; and two raised errors with equal messages produce identical
results, so a cancelled call is indistinguishable in shape from any other
failure. -/
theorem c10_execute_total (s : MState) (signal : Option Signal)
    (env : ConnectEnv) (remote : RemoteBehavior) (e : CallErr)
    (h : (callTool s signal env remote).outcome = Except.error e) :
    executeTool s signal env remote
      = { llmContent := "Error: " ++ e.message,
          returnDisplay := "Error: " ++ e.message,
          error := some { message := e.message } }
    ∧ ∀ e2 : CallErr, e2.message = e.message →
        executeResult (Except.error e2) = executeResult (Except.error e) := by
  constructor
  · show executeResult (callTool s signal env remote).outcome = _
    rw [h]
    rfl
  · intro e2 he
    simp [executeResult, he]

/-- Witness for C10: the pre-aborted cancellation surfaces as the
failure-shaped result with the `Error: ` prefix and the reason as message. -/
theorem c10_execute_witness :
    executeTool {} (some sigAborted) connectEnvOk remoteOk
      = { llmContent := "Error: " ++ "Operation cancelled",
          returnDisplay := "Error: " ++ "Operation cancelled",
          error := some { message := "Operation cancelled" } } :=
  (c10_execute_total {} (some sigAborted) connectEnvOk remoteOk
    (CallErr.cancelled "Operation cancelled") rfl).1

/-- Counterexample to claim C6 as stated: the code's payload skips a
text-typed item whose text is empty, while "the concatenation of all
text-typed content items joined by newline" would keep it — on
`[{type: text, text: ""}, {type: text, text: "a"}]` the code yields `"a"`
but the claimed join is `"\na"`. -/
theorem c6_normalization_counterexample :
    (executeResult (Except.ok
        { content := some [itemEmptyText, itemTextA], isError := false })).llmContent = "a"
    ∧ specAllTextJoined [itemEmptyText, itemTextA] = "\na"
    ∧ ("a" : String) ≠ "\na" :=
  ⟨rfl, rfl, by decide⟩

/-- Claim C6 as amended: on a non-error response the primary payload is the
newline-join of the text-typed content items that carry a nonempty text,
preserving source order and skipping non-text items as well as text items
with empty or absent text; when no such item exists (in particular when the
content list is absent) the payload is the fixed placeholder success message,
never the empty string; the display payload equals the primary payload and no
error record is attached. -/
theorem c6_normalization_amended (items : List McpContentItem) :
    (executeResult (Except.ok { content := some items, isError := false })).error = none
    ∧ (executeResult (Except.ok { content := some items, isError := false })).llmContent
        = (if joinNonemptyTexts items = "" then "Tool executed successfully."
           else joinNonemptyTexts items)
    ∧ (executeResult (Except.ok { content := some items, isError := false })).llmContent ≠ ""
    ∧ (executeResult (Except.ok { content := some items, isError := false })).returnDisplay
        = (executeResult (Except.ok { content := some items, isError := false })).llmContent
    ∧ (executeResult (Except.ok { content := none, isError := false })).llmContent
        = "Tool executed successfully." := by
  have hn := normalizeTextContent_eq items
  refine ⟨by simp [executeResult], by simp [executeResult, hn], ?_, by simp [executeResult], rfl⟩
  simp only [executeResult, Bool.false_eq_true, if_false, hn]
  split
  · decide
  · next h => exact h

/-- Counterexample to claim C7 as stated: on an error-flagged response the
error detail also skips a text-typed item with empty text — on
`[{type: text, text: ""}, {type: text, text: "boom"}]` the code's detail is
`"boom"` while the claimed join of all text-typed items is `"\nboom"`. -/
theorem c7_remote_error_counterexample :
    (executeResult (Except.ok
        { content := some [itemEmptyText, itemBoom], isError := true })).error
      = some { message := "boom" }
    ∧ specAllTextJoined [itemEmptyText, itemBoom] = "\nboom"
    ∧ ("boom" : String) ≠ "\nboom" :=
  ⟨rfl, rfl, by decide⟩

/-- Claim C7 as amended: an error-flagged response yields a returned
failure-shaped result (not a thrown exception) whose error detail is the
newline-join of the text-typed content items carrying a nonempty text, and
whose payloads carry the same detail with the `Error: ` prefix. -/
theorem c7_remote_error_amended (items : List McpContentItem) :
    executeResult (Except.ok { content := some items, isError := true })
      = { llmContent := "Error: " ++ joinNonemptyTexts items,
          returnDisplay := "Error: " ++ joinNonemptyTexts items,
          error := some { message := joinNonemptyTexts items } } := by
  simp [executeResult, normalizeTextContent_eq items]

/-- Claim C8 (confirmed): wrapping a discovery response with N descriptors
yields exactly N operations; names are mirrored as-is (duplicates included —
no deduplication or renaming), descriptions are mirrored with a missing one
defaulting to the empty string, and input schemas are mirrored with a missing
one defaulting to the empty-object schema, which has type `object`, an empty
`properties` object and no `required` key. -/
theorem c8_wrapping_completeness (browserManagerId messageBusId : Nat)
    (ts : List McpTool) :
    (createMcpDeclarativeTools browserManagerId messageBusId ts).length = ts.length
    ∧ (createMcpDeclarativeTools browserManagerId messageBusId ts).map
        McpDeclarativeTool.name = ts.map McpTool.name
    ∧ (createMcpDeclarativeTools browserManagerId messageBusId ts).map
        McpDeclarativeTool.description = ts.map (fun t => t.description.getD "")
    ∧ (createMcpDeclarativeTools browserManagerId messageBusId ts).map
        McpDeclarativeTool.parameterSchema
        = ts.map (fun t => t.inputSchema.getD emptyObjectSchema)
    ∧ emptyObjectSchema.lookup "type" = some (Json.str "object")
    ∧ emptyObjectSchema.lookup "properties" = some (Json.obj [])
    ∧ emptyObjectSchema.lookup "required" = none := by
  refine ⟨by simp [createMcpDeclarativeTools], ?_, ?_, ?_, rfl, rfl, rfl⟩ <;>
    simp [createMcpDeclarativeTools, wrapTool, convertMcpToolToFunctionDeclaration,
      List.map_map, Function.comp]

/-- Claim C1 (confirmed): the bridge factory leaves the shared/global tool
registry untouched across builds; each build's operation set is produced
solely by mapping the discovered descriptors over the wrap constructor bound
to that build's fresh manager; two bridges built from two independently
constructed managers, from identical discovery responses, reference distinct
managers (no shared state) and their operation sets are disjoint as objects. -/
theorem c1_isolation (w : World) (messageBusId : Nat) (ts : List McpTool) :
    (createBrowserAgentDefinition w messageBusId ts).1.toolRegistry = w.toolRegistry
    ∧ (createBrowserAgentDefinition
        (createBrowserAgentDefinition w messageBusId ts).1 messageBusId ts).1.toolRegistry
        = w.toolRegistry
    ∧ (createBrowserAgentDefinition w messageBusId ts).2.tools
        = ts.map (wrapTool w.nextManagerId messageBusId)
    ∧ (createBrowserAgentDefinition
        (createBrowserAgentDefinition w messageBusId ts).1 messageBusId ts).2.tools
        = ts.map (wrapTool (w.nextManagerId + 1) messageBusId)
    ∧ (createBrowserAgentDefinition w messageBusId ts).2.browserManager
        ≠ (createBrowserAgentDefinition
            (createBrowserAgentDefinition w messageBusId ts).1 messageBusId ts).2.browserManager
    ∧ List.Disjoint (createBrowserAgentDefinition w messageBusId ts).2.tools
        (createBrowserAgentDefinition
          (createBrowserAgentDefinition w messageBusId ts).1 messageBusId ts).2.tools := by
  refine ⟨rfl, rfl, rfl, rfl, ?_, ?_⟩
  · intro h
    simp [createBrowserAgentDefinition] at h
  · intro a ha hb
    simp [createBrowserAgentDefinition, createMcpDeclarativeTools, List.mem_map] at ha hb
    rcases ha with ⟨t1, ht1, h1⟩
    rcases hb with ⟨t2, ht2, h2⟩
    have e1 : a.browserManagerId = w.nextManagerId := by rw [← h1]; rfl
    have e2 : a.browserManagerId = w.nextManagerId + 1 := by rw [← h2]; rfl
    omega

/-- The atomic step of one `ensureConnection` caller either leaves the shared
client/spawn pair unchanged, or (only when the client was unset) sets the
client and increments the spawn count by one. -/
theorem stepCaller_g (env : ConnectEnv) (g : Bool × Nat) (c : Caller) :
    (stepCaller env g c).1 = g
    ∨ (g.1 = false ∧ (stepCaller env g c).1 = (true, g.2 + 1)) := by
  rcases c with ⟨pc, oc⟩
  cases oc <;> cases pc <;> simp [stepCaller] <;> split_ifs <;> simp_all

/-- The spawn-count invariant of the interleaving model: the spawn count is
one exactly when the client field is set. -/
def connInv (st : CState) : Prop := st.spawns = if st.client then 1 else 0

/-- One scheduler step preserves the spawn-count invariant. -/
theorem stepAt_connInv (env : ConnectEnv) (st : CState) (i : Nat)
    (h : connInv st) : connInv (stepAt env st i) := by
  rcases st with ⟨cl, sp, cs⟩
  unfold connInv at h
  unfold stepAt connInv
  dsimp only
  cases hget : cs.get? i with
  | none => simpa using h
  | some c =>
      rcases c with ⟨pc, oc⟩
      cases oc <;> cases pc <;> cases cl <;>
        simp_all [stepCaller] <;> split_ifs <;> simp_all

/-- Any schedule over any number of concurrent callers maintains the
spawn-count invariant from the fresh-manager start state. -/
theorem runSched_connInv (env : ConnectEnv) (n : Nat) (sched : List Nat) :
    connInv (runSched env n sched) := by
  unfold runSched
  have hgen : ∀ (l : List Nat) (st : CState),
      connInv st → connInv (l.foldl (stepAt env) st) := by
    intro l
    induction l with
    | nil => intro st h; exact h
    | cons x xs ih => intro st h; exact ih _ (stepAt_connInv env st x h)
  exact hgen sched _ rfl

/-- Counterexample to claim C3 as stated: under the interleaving in which
caller 0 starts the attempt, caller 1 then calls `ensureConnection` (sees the
client field already set and returns success immediately), and the connect
await then rejects, only one subprocess was spawned but the two callers
observe different outcomes — caller 0 a failure, caller 1 a success. -/
theorem c3_dedup_counterexample :
    (runSched connectEnvFail 2 [0, 1, 0]).spawns = 1
    ∧ (runSched connectEnvFail 2 [0, 1, 0]).callers.map Caller.outcome
        = [COutcome.err, COutcome.ok]
    ∧ COutcome.err ≠ COutcome.ok :=
  ⟨by decide, by decide, by decide⟩

/-- Claim C3 as amended: for every interleaving of any number of concurrent
`ensureConnection()` calls on one manager, at most one subprocess is spawned
(the check-then-create prefix runs atomically before the first await), but
the callers need not observe the same outcome of the single in-flight
attempt: a caller arriving while the attempt is in flight returns success
immediately without waiting, so it can observe success while the initiating
caller's attempt fails. -/
theorem c3_dedup_amended :
    (∀ (env : ConnectEnv) (n : Nat) (sched : List Nat),
        (runSched env n sched).spawns ≤ 1)
    ∧ (∃ (env : ConnectEnv) (sched : List Nat),
        (runSched env 2 sched).spawns = 1
        ∧ (runSched env 2 sched).callers.map Caller.outcome
            = [COutcome.err, COutcome.ok]
        ∧ COutcome.err ≠ COutcome.ok) := by
  constructor
  · intro env n sched
    have h := runSched_connInv env n sched
    unfold connInv at h
    rw [h]
    split <;> omega
  · exact ⟨connectEnvFail, [0, 1, 0], by decide, by decide, by decide⟩

end GeminiBrowser
